import Mathlib

/-!
Verification of the forensic-accounting analytics core:
the Beneish M-Score calculator (`lib/beneish_score.py`), the red-flag
rule battery (`lib/red_flags.py`) and the orchestrator's scoring and
aggregation logic (`lib/forensic_analysis.py`).

Python floats are modelled as exact rationals (`ℚ`); every division in
the source is guarded by an explicit zero test, so the guard structure
transfers verbatim.  Python dicts of financial figures are modelled as
association lists `List (String × ℚ)`; `dict.get(k, v)` becomes `dget`,
and key membership becomes `List.lookup` success.
-/

/-- A financial-data mapping: Python `Dict[str, float]` as an association list. -/
abbrev FinData := List (String × ℚ)

/-- Python `d.get(k, v)`: the value bound to `k`, or the default `v` when absent. -/
def dget (d : FinData) (k : String) (v : ℚ) : ℚ := (d.lookup k).getD v

/-- Model coefficients of `BeneishMScore.COEFFICIENTS` (Beneish 1999).
Looking up a name outside the table is a Python `KeyError`; the total model
returns 0 there, and no call site uses such a name. -/
def COEFFICIENTS : String → ℚ
  | "intercept" => -4.84
  | "DSRI" => 0.92
  | "GMI" => 0.528
  | "AQI" => 0.404
  | "SGI" => 0.892
  | "DEPI" => 0.115
  | "SGAI" => -0.172
  | "TATA" => 4.679
  | "LVGI" => -0.327
  | _ => 0

/-- `BeneishMScore.THRESHOLD_8_VAR`. -/
def THRESHOLD_8_VAR : ℚ := -2.22

/-- `BeneishMScore.THRESHOLD_5_VAR`. -/
def THRESHOLD_5_VAR : ℚ := -1.78

/-- `BeneishMScore.calculate_dsri`: Days Sales in Receivables Index. -/
def calculate_dsri (ar_current sales_current ar_prior sales_prior : ℚ) : ℚ :=
  if sales_current = 0 ∨ sales_prior = 0 ∨ ar_prior = 0 then 1.0
  else
    let dsr_current := ar_current / sales_current
    let dsr_prior := ar_prior / sales_prior
    if dsr_prior = 0 then 1.0 else dsr_current / dsr_prior

/-- `BeneishMScore.calculate_gmi`: Gross Margin Index. -/
def calculate_gmi (gross_margin_prior gross_margin_current : ℚ) : ℚ :=
  if gross_margin_current = 0 then 1.0
  else gross_margin_prior / gross_margin_current

/-- `BeneishMScore.calculate_aqi`: Asset Quality Index. -/
def calculate_aqi (total_assets_current ppe_current current_assets_current
    total_assets_prior ppe_prior current_assets_prior : ℚ) : ℚ :=
  if total_assets_current = 0 ∨ total_assets_prior = 0 then 1.0
  else
    let aqi_current := 1 - ((current_assets_current + ppe_current) / total_assets_current)
    let aqi_prior := 1 - ((current_assets_prior + ppe_prior) / total_assets_prior)
    if aqi_prior = 0 then 1.0 else aqi_current / aqi_prior

/-- `BeneishMScore.calculate_sgi`: Sales Growth Index. -/
def calculate_sgi (sales_current sales_prior : ℚ) : ℚ :=
  if sales_prior = 0 then 1.0 else sales_current / sales_prior

/-- `BeneishMScore.calculate_depi`: Depreciation Index. -/
def calculate_depi (depreciation_rate_prior depreciation_rate_current : ℚ) : ℚ :=
  if depreciation_rate_current = 0 then 1.0
  else depreciation_rate_prior / depreciation_rate_current

/-- `BeneishMScore.calculate_sgai`: Sales, General and Administrative Expenses Index. -/
def calculate_sgai (sga_current sales_current sga_prior sales_prior : ℚ) : ℚ :=
  if sales_current = 0 ∨ sales_prior = 0 then 1.0
  else
    let sgai_current := sga_current / sales_current
    let sgai_prior := sga_prior / sales_prior
    if sgai_prior = 0 then 1.0 else sgai_current / sgai_prior

/-- `BeneishMScore.calculate_lvgi`: Leverage Index. -/
def calculate_lvgi (total_debt_current total_assets_current
    total_debt_prior total_assets_prior : ℚ) : ℚ :=
  if total_assets_current = 0 ∨ total_assets_prior = 0 then 1.0
  else
    let leverage_current := total_debt_current / total_assets_current
    let leverage_prior := total_debt_prior / total_assets_prior
    if leverage_prior = 0 then 1.0 else leverage_current / leverage_prior

/-- `BeneishMScore.calculate_tata`: Total Accruals to Total Assets. -/
def calculate_tata (net_income operating_cash_flow total_assets : ℚ) : ℚ :=
  if total_assets = 0 then 0.0
  else (net_income - operating_cash_flow) / total_assets

/-- The `required_fields` list of `BeneishMScore.calculate_m_score`, in source order. -/
def requiredFields : List String :=
  ["ar_current", "ar_prior", "sales_current", "sales_prior",
   "cogs_current", "cogs_prior", "total_assets_current", "total_assets_prior",
   "ppe_current", "ppe_prior", "current_assets_current", "current_assets_prior",
   "depreciation_current", "depreciation_prior", "sga_current", "sga_prior",
   "total_debt_current", "total_debt_prior", "net_income_current",
   "operating_cf_current"]

/-- The list `missing = [field for field in required_fields if field not in financial_data]`. -/
def missingFields (d : FinData) : List String :=
  requiredFields.filter (fun f => (d.lookup f).isNone)

/-- The eight Beneish variables, in the insertion order of the Python
`variables` dict: DSRI, GMI, AQI, SGI, DEPI, SGAI, TATA, LVGI. -/
structure BeneishVars where
  DSRI : ℚ
  GMI : ℚ
  AQI : ℚ
  SGI : ℚ
  DEPI : ℚ
  SGAI : ℚ
  TATA : ℚ
  LVGI : ℚ
deriving Repr, DecidableEq

/-- `variables.items()` in dict insertion order. -/
def varsList (v : BeneishVars) : List (String × ℚ) :=
  [("DSRI", v.DSRI), ("GMI", v.GMI), ("AQI", v.AQI), ("SGI", v.SGI),
   ("DEPI", v.DEPI), ("SGAI", v.SGAI), ("TATA", v.TATA), ("LVGI", v.LVGI)]

/-- The eight variables as computed inside `calculate_m_score` from the
validated data, including the inline gross-margin and depreciation-rate
preparations with their `... if denom != 0 else 0` guards.  After the
missing-field gate every required key is present, so the access
`financial_data[k]` is `dget d k 0` with the default never taken. -/
def computeVars (d : FinData) : BeneishVars :=
  let gross_margin_current :=
    if dget d "sales_current" 0 ≠ 0 then
      (dget d "sales_current" 0 - dget d "cogs_current" 0) / dget d "sales_current" 0
    else 0
  let gross_margin_prior :=
    if dget d "sales_prior" 0 ≠ 0 then
      (dget d "sales_prior" 0 - dget d "cogs_prior" 0) / dget d "sales_prior" 0
    else 0
  let depreciation_rate_current :=
    if dget d "depreciation_current" 0 + dget d "ppe_current" 0 ≠ 0 then
      dget d "depreciation_current" 0 /
        (dget d "depreciation_current" 0 + dget d "ppe_current" 0)
    else 0
  let depreciation_rate_prior :=
    if dget d "depreciation_prior" 0 + dget d "ppe_prior" 0 ≠ 0 then
      dget d "depreciation_prior" 0 /
        (dget d "depreciation_prior" 0 + dget d "ppe_prior" 0)
    else 0
  { DSRI := calculate_dsri (dget d "ar_current" 0) (dget d "sales_current" 0)
      (dget d "ar_prior" 0) (dget d "sales_prior" 0)
    GMI := calculate_gmi gross_margin_prior gross_margin_current
    AQI := calculate_aqi (dget d "total_assets_current" 0) (dget d "ppe_current" 0)
      (dget d "current_assets_current" 0) (dget d "total_assets_prior" 0)
      (dget d "ppe_prior" 0) (dget d "current_assets_prior" 0)
    SGI := calculate_sgi (dget d "sales_current" 0) (dget d "sales_prior" 0)
    DEPI := calculate_depi depreciation_rate_prior depreciation_rate_current
    SGAI := calculate_sgai (dget d "sga_current" 0) (dget d "sales_current" 0)
      (dget d "sga_prior" 0) (dget d "sales_prior" 0)
    TATA := calculate_tata (dget d "net_income_current" 0)
      (dget d "operating_cf_current" 0) (dget d "total_assets_current" 0)
    LVGI := calculate_lvgi (dget d "total_debt_current" 0)
      (dget d "total_assets_current" 0) (dget d "total_debt_prior" 0)
      (dget d "total_assets_prior" 0) }

/-- The accumulation loop `for var_name, var_value in variables.items():
m_score += COEFFICIENTS[var_name] * var_value`, started at the intercept. -/
def mScoreFold (v : BeneishVars) : ℚ :=
  (varsList v).foldl (fun acc p => acc + COEFFICIENTS p.1 * p.2)
    (COEFFICIENTS "intercept")

/-- `BeneishMScore.calculate_m_score`.  The Python `ValueError` with message
`"Missing required fields: {missing}"` is modelled as `Except.error missing`,
carrying exactly the list interpolated into the message. -/
def calculate_m_score (d : FinData) : Except (List String) (ℚ × BeneishVars) :=
  let missing := missingFields d
  if missing = [] then
    let v := computeVars d
    Except.ok (mScoreFold v, v)
  else Except.error missing

/-- Result of `BeneishMScore.interpret_score`. -/
structure ScoreInterp where
  score : ℚ
  threshold : ℚ
  is_likely_manipulator : Bool
  risk_level : String
  interpretation : String
deriving Repr, DecidableEq

/-- `BeneishMScore.interpret_score`. -/
def interpret_score (m_score : ℚ) : ScoreInterp :=
  let is_manipulator : Bool := m_score > THRESHOLD_8_VAR
  if m_score > -1.78 then
    { score := m_score, threshold := THRESHOLD_8_VAR,
      is_likely_manipulator := is_manipulator, risk_level := "VERY HIGH",
      interpretation := "Strong indication of earnings manipulation. Immediate investigation recommended." }
  else if m_score > -2.22 then
    { score := m_score, threshold := THRESHOLD_8_VAR,
      is_likely_manipulator := is_manipulator, risk_level := "HIGH",
      interpretation := "Significant red flags present. Detailed forensic review warranted." }
  else if m_score > -2.50 then
    { score := m_score, threshold := THRESHOLD_8_VAR,
      is_likely_manipulator := is_manipulator, risk_level := "MODERATE",
      interpretation := "Some concerning signals. Monitor closely and investigate specific areas." }
  else
    { score := m_score, threshold := THRESHOLD_8_VAR,
      is_likely_manipulator := is_manipulator, risk_level := "LOW",
      interpretation := "Financial reporting appears within normal parameters." }

/-!
Red-flag battery (`red_flags.py`).  `RedFlagFinding` keeps the fields the
verified properties observe (category, severity, title); the remaining
fields of the Python dataclass (description, metrics, implications,
recommendations) are presentational payload strings and numeric echoes of
the already-modelled guards, and are elided.
-/

/-- An annual standardized financial record (`Dict[str, float]`). -/
abbrev AnnualData := FinData

/-- A detected red flag (`RedFlagFinding` dataclass, presentational fields elided).
The declared severity domain is Low, Medium, High, Critical. -/
structure RedFlagFinding where
  category : String
  severity : String
  title : String
deriving Repr, DecidableEq

/-- `ForensicRedFlagAnalyzer.analyze_revenue_quality`.  The empty-list case is
unreachable from `analyze_all` (guarded by `len < 2`); Python would raise
`IndexError` there.  `prior` falsy (absent or the empty dict) returns early. -/
def analyze_revenue_quality (financial_data : List AnnualData) : List RedFlagFinding :=
  match financial_data with
  | [] => []
  | [_] => []
  | current :: prior :: _ =>
    if prior = [] then []
    else
      let revenue_current := dget current "Revenues" 0
      let revenue_prior := dget prior "Revenues" 0
      let ar_current := dget current "AccountsReceivable" 0
      let ar_prior := dget prior "AccountsReceivable" 0
      let dso_findings :=
        if revenue_current > 0 ∧ revenue_prior > 0 then
          let dso_current := (ar_current / revenue_current) * 365
          let dso_prior := (ar_prior / revenue_prior) * 365
          if dso_prior > 0 then
            let dso_change := ((dso_current - dso_prior) / dso_prior) * 100
            if dso_change > 10 then
              [{ category := "Revenue Quality",
                 severity := if dso_change > 20 then "High" else "Medium",
                 title := "Increasing Days Sales Outstanding (DSO)" }]
            else []
          else []
        else []
      let divergence_findings :=
        if revenue_prior > 0 ∧ ar_prior > 0 then
          let revenue_growth := ((revenue_current - revenue_prior) / revenue_prior) * 100
          let ar_growth := ((ar_current - ar_prior) / ar_prior) * 100
          if ar_growth > revenue_growth + 15 then
            [{ category := "Revenue Quality", severity := "High",
               title := "Accounts Receivable Growing Faster Than Revenue" }]
          else []
        else []
      dso_findings ++ divergence_findings

/-- `ForensicRedFlagAnalyzer.analyze_cash_flow_quality`.  The empty-list case
is unreachable from `analyze_all`. -/
def analyze_cash_flow_quality (financial_data : List AnnualData) : List RedFlagFinding :=
  match financial_data with
  | [] => []
  | current :: _ =>
    let net_income := dget current "NetIncome" 0
    let operating_cf := dget current "OperatingCashFlow" 0
    let ratio_findings :=
      if net_income > 0 then
        let cf_to_ni_ratio := operating_cf / net_income
        if cf_to_ni_ratio < 0.8 then
          [{ category := "Earnings Quality",
             severity := if cf_to_ni_ratio < 0.5 then "Critical" else "High",
             title := "Operating Cash Flow Significantly Below Net Income" }]
        else []
      else []
    let negative_cf_findings :=
      if operating_cf < 0 ∧ net_income > 0 then
        [{ category := "Earnings Quality", severity := "Critical",
           title := "Negative Operating Cash Flow Despite Positive Earnings" }]
      else []
    ratio_findings ++ negative_cf_findings

/-- `ForensicRedFlagAnalyzer.analyze_working_capital`. -/
def analyze_working_capital (financial_data : List AnnualData) : List RedFlagFinding :=
  match financial_data with
  | current :: prior :: _ =>
    let current_assets := dget current "CurrentAssets" 0
    let current_liabilities := dget current "CurrentLiabilities" 0
    let inventory_current := dget current "Inventory" 0
    let revenue_current := dget current "Revenues" 0
    let current_assets_prior := dget prior "CurrentAssets" 0
    let current_liabilities_prior := dget prior "CurrentLiabilities" 0
    let inventory_prior := dget prior "Inventory" 0
    let revenue_prior := dget prior "Revenues" 0
    let ratio_findings :=
      if current_liabilities > 0 ∧ current_liabilities_prior > 0 then
        let current_ratio := current_assets / current_liabilities
        let current_ratio_prior := current_assets_prior / current_liabilities_prior
        if current_ratio_prior > 0 then
          let ratio_change := ((current_ratio - current_ratio_prior) / current_ratio_prior) * 100
          if ratio_change < -15 ∧ current_ratio < 1.5 then
            [{ category := "Liquidity", severity := "High",
               title := "Deteriorating Current Ratio" }]
          else []
        else []
      else []
    let inventory_findings :=
      if revenue_prior > 0 ∧ inventory_prior > 0 then
        let revenue_growth := ((revenue_current - revenue_prior) / revenue_prior) * 100
        let inventory_growth := ((inventory_current - inventory_prior) / inventory_prior) * 100
        if inventory_growth > revenue_growth + 10 ∧ inventory_growth > 15 then
          [{ category := "Asset Quality", severity := "Medium",
             title := "Inventory Growing Faster Than Sales" }]
        else []
      else []
    ratio_findings ++ inventory_findings
  | _ => []

/-- `ForensicRedFlagAnalyzer.analyze_earnings_quality`.  The source compares
coefficients of variation `std / |avg|` computed with a square root; since
both compared quantities are nonnegative, the guards `cf_cv > 0.3` and
`ni_cv < cf_cv * 0.5` are restated equivalently on their squares
(`x < y ↔ x^2 < y^2` for nonnegative `x`, `y`), keeping the model in `ℚ`. -/
def analyze_earnings_quality (financial_data : List AnnualData) : List RedFlagFinding :=
  if financial_data.length < 3 then []
  else
    let net_incomes := (financial_data.take 5).map (fun year => dget year "NetIncome" 0)
    let operating_cfs := (financial_data.take 5).map (fun year => dget year "OperatingCashFlow" 0)
    if net_incomes.length ≥ 3 ∧ operating_cfs.length ≥ 3 then
      let ni_values := net_incomes.filter (fun ni => ni ≠ 0)
      let cf_values := operating_cfs.filter (fun cf => cf ≠ 0)
      if ni_values.length ≥ 3 ∧ cf_values.length ≥ 3 then
        let ni_avg := ni_values.sum / (ni_values.length : ℚ)
        let cf_avg := cf_values.sum / (cf_values.length : ℚ)
        let ni_var := ((ni_values.map (fun x => (x - ni_avg) ^ 2)).sum) / (ni_values.length : ℚ)
        let cf_var := ((cf_values.map (fun x => (x - cf_avg) ^ 2)).sum) / (cf_values.length : ℚ)
        if ni_avg ≠ 0 ∧ cf_avg ≠ 0 then
          let ni_cv_sq := ni_var / ni_avg ^ 2
          let cf_cv_sq := cf_var / cf_avg ^ 2
          if cf_cv_sq > 0.09 ∧ ni_cv_sq < cf_cv_sq * 0.25 then
            [{ category := "Earnings Quality", severity := "Medium",
               title := "Potential Earnings Smoothing" }]
          else []
        else []
      else []
    else []

/-- `ForensicRedFlagAnalyzer.analyze_asset_quality`. -/
def analyze_asset_quality (financial_data : List AnnualData) : List RedFlagFinding :=
  match financial_data with
  | current :: prior :: _ =>
    let total_assets_current := dget current "Assets" 0
    let total_assets_prior := dget prior "Assets" 0
    let ppe_current := dget current "PropertyPlantEquipment" 0
    let ppe_prior := dget prior "PropertyPlantEquipment" 0
    let current_assets_current := dget current "CurrentAssets" 0
    let current_assets_prior := dget prior "CurrentAssets" 0
    if total_assets_current > 0 ∧ total_assets_prior > 0 then
      let soft_assets_current := total_assets_current - current_assets_current - ppe_current
      let soft_assets_prior := total_assets_prior - current_assets_prior - ppe_prior
      let soft_assets_pct_current := (soft_assets_current / total_assets_current) * 100
      let soft_assets_pct_prior := (soft_assets_prior / total_assets_prior) * 100
      let pct_change := soft_assets_pct_current - soft_assets_pct_prior
      if pct_change > 5 ∧ soft_assets_pct_current > 20 then
        [{ category := "Asset Quality", severity := "Medium",
           title := "Increasing Proportion of Intangible/Soft Assets" }]
      else []
    else []
  | _ => []

/-- `ForensicRedFlagAnalyzer.analyze_debt_trends`. -/
def analyze_debt_trends (financial_data : List AnnualData) : List RedFlagFinding :=
  match financial_data with
  | current :: prior :: _ =>
    let total_debt_current := dget current "Liabilities" 0
    let total_debt_prior := dget prior "Liabilities" 0
    let equity_current := dget current "StockholdersEquity" 0
    let equity_prior := dget prior "StockholdersEquity" 0
    if equity_current > 0 ∧ equity_prior > 0 then
      let de_ratio_current := total_debt_current / equity_current
      let de_ratio_prior := total_debt_prior / equity_prior
      if de_ratio_prior > 0 then
        let de_change := ((de_ratio_current - de_ratio_prior) / de_ratio_prior) * 100
        if de_change > 20 ∧ de_ratio_current > 1.5 then
          [{ category := "Financial Risk", severity := "High",
             title := "Rapidly Increasing Leverage" }]
        else []
      else []
    else []
  | _ => []

/-- `ForensicRedFlagAnalyzer.analyze_margins`. -/
def analyze_margins (financial_data : List AnnualData) : List RedFlagFinding :=
  match financial_data with
  | current :: prior :: _ =>
    let revenue_current := dget current "Revenues" 0
    let revenue_prior := dget prior "Revenues" 0
    let cogs_current := dget current "CostOfRevenue" 0
    let cogs_prior := dget prior "CostOfRevenue" 0
    if revenue_current > 0 ∧ revenue_prior > 0 then
      let gross_margin_current := ((revenue_current - cogs_current) / revenue_current) * 100
      let gross_margin_prior := ((revenue_prior - cogs_prior) / revenue_prior) * 100
      let margin_change := gross_margin_current - gross_margin_prior
      if margin_change < -5 then
        [{ category := "Profitability",
           severity := if margin_change < -10 then "High" else "Medium",
           title := "Deteriorating Gross Margins" }]
      else []
    else []
  | _ => []

/-- `ForensicRedFlagAnalyzer.analyze_all`: resets the findings, returns empty
below 2 records, otherwise accumulates the seven analyses in source order. -/
def analyze_all (financial_data : List AnnualData) : List RedFlagFinding :=
  if financial_data.length < 2 then []
  else
    analyze_revenue_quality financial_data ++
    analyze_cash_flow_quality financial_data ++
    analyze_working_capital financial_data ++
    analyze_earnings_quality financial_data ++
    analyze_asset_quality financial_data ++
    analyze_debt_trends financial_data ++
    analyze_margins financial_data

/-!
Orchestrator (`forensic_analysis.py`).  `ForensicAccountingAnalyzer`
prepares per-pair Beneish input dicts, runs the calculator inside a
try/except that skips failing pairs, and aggregates a weighted risk score.
-/

/-- `ForensicAccountingAnalyzer._estimate_sga`. -/
def estimate_sga (year_data : AnnualData) : ℚ :=
  let revenues := dget year_data "Revenues" 0
  let cogs := dget year_data "CostOfRevenue" 0
  let operating_income := dget year_data "OperatingIncome" 0
  if revenues > 0 ∧ cogs ≥ 0 then
    let gross_profit := revenues - cogs
    let sga := gross_profit - operating_income
    max sga 0
  else revenues * 0.20

/-- The `beneish_data` dict built inside
`ForensicAccountingAnalyzer._calculate_beneish_scores` for one
(current, prior) year pair, in source key order.  Note the defaults:
every metric defaults to 0 when absent, except
`DepreciationAndAmortization`, whose `.get` default is 1. -/
def prepareBeneishData (current_year prior_year : AnnualData) : FinData :=
  [("ar_current", dget current_year "AccountsReceivable" 0),
   ("ar_prior", dget prior_year "AccountsReceivable" 0),
   ("sales_current", dget current_year "Revenues" 0),
   ("sales_prior", dget prior_year "Revenues" 0),
   ("cogs_current", dget current_year "CostOfRevenue" 0),
   ("cogs_prior", dget prior_year "CostOfRevenue" 0),
   ("total_assets_current", dget current_year "Assets" 0),
   ("total_assets_prior", dget prior_year "Assets" 0),
   ("ppe_current", dget current_year "PropertyPlantEquipment" 0),
   ("ppe_prior", dget prior_year "PropertyPlantEquipment" 0),
   ("current_assets_current", dget current_year "CurrentAssets" 0),
   ("current_assets_prior", dget prior_year "CurrentAssets" 0),
   ("depreciation_current", dget current_year "DepreciationAndAmortization" 1),
   ("depreciation_prior", dget prior_year "DepreciationAndAmortization" 1),
   ("sga_current", estimate_sga current_year),
   ("sga_prior", estimate_sga prior_year),
   ("total_debt_current", dget current_year "Liabilities" 0),
   ("total_debt_prior", dget prior_year "Liabilities" 0),
   ("net_income_current", dget current_year "NetIncome" 0),
   ("operating_cf_current", dget current_year "OperatingCashFlow" 0)]

/-- One entry of the orchestrator's `beneish_scores` result list.  The
`period` and `comparison_to` labels and the `variable_flags` annotation
list are presentational and elided; the verified properties observe the
score, the `variables` dict (field `indexVars`; `variables` is a reserved
word in Lean) and the interpretation. -/
structure PairResult where
  m_score : ℚ
  indexVars : BeneishVars
  interpretation : ScoreInterp
deriving Repr, DecidableEq

/-- The loop of `_calculate_beneish_scores`, abstracted over the body of
its `try` block: `compute` is the per-pair computation, returning
`Except.error` where the Python body raises (e.g. non-numeric metric
values, or the calculator's missing-field `ValueError`).  Walking
`annual_data` adjacent pairs from index `i`, a success appends to the
result list and a failure appends the printed warning line to the log
instead of aborting. -/
def calcBeneishLoop (compute : AnnualData → AnnualData → Except String PairResult) :
    List AnnualData → Nat → List PairResult × List String
  | current_year :: prior_year :: rest, i =>
    let tail := calcBeneishLoop compute (prior_year :: rest) (i + 1)
    match compute current_year prior_year with
    | Except.ok r => (r :: tail.1, tail.2)
    | Except.error e =>
      (tail.1,
       ("Warning: Could not calculate Beneish score for period " ++
        toString i ++ ": " ++ e) :: tail.2)
  | _, _ => ([], [])

/-- The `try`-block body of `_calculate_beneish_scores` for one pair:
build the input dict, run the calculator, interpret the score. -/
def beneishPairCompute (current_year prior_year : AnnualData) : Except String PairResult :=
  match calculate_m_score (prepareBeneishData current_year prior_year) with
  | Except.ok (m, v) =>
    Except.ok { m_score := m, indexVars := v, interpretation := interpret_score m }
  | Except.error missing =>
    Except.error ("Missing required fields: " ++ toString missing)

/-- `ForensicAccountingAnalyzer._calculate_beneish_scores` (results, log). -/
def calculate_beneish_scores (annual_data : List AnnualData) :
    List PairResult × List String :=
  calcBeneishLoop beneishPairCompute annual_data 0

/-- The `m_score_trend` entry of the trends dict: only the
`is_deteriorating` flag is read by `_generate_assessment`. -/
structure MScoreTrend where
  is_deteriorating : Bool
deriving Repr, DecidableEq

/-- The `cash_flow_quality` entry of the trends dict. -/
structure CashFlowQuality where
  is_healthy : Bool
deriving Repr, DecidableEq

/-- The `profit_margin` entry of the trends dict; `latest_pct` models the
`latest_%` key. -/
structure ProfitMarginTrend where
  is_improving : Bool
  latest_pct : ℚ
deriving Repr, DecidableEq

/-- The trends dict produced by `_analyze_trends`: each key may be absent,
and `_generate_assessment` reads it through `.get` with a default. -/
structure Trends where
  m_score_trend : Option MScoreTrend
  cash_flow_quality : Option CashFlowQuality
  profit_margin : Option ProfitMarginTrend
deriving Repr, DecidableEq

/-- The severity tally of `_generate_assessment`
(`severity_counts.get(s, 0)` after counting each finding). -/
def countSeverity (red_flags : List RedFlagFinding) (s : String) : ℕ :=
  (red_flags.filter (fun rf => rf.severity = s)).length

/-- The risk-level step mapping at the end of `_generate_assessment`. -/
def riskLevel (risk_score : ℤ) : String :=
  if risk_score ≥ 60 then "VERY HIGH"
  else if risk_score ≥ 40 then "HIGH"
  else if risk_score ≥ 20 then "MODERATE"
  else "LOW"

/-- The fixed recommendation string chosen alongside `riskLevel`. -/
def recommendationFor (risk_score : ℤ) : String :=
  if risk_score ≥ 60 then
    "Immediate forensic investigation recommended. Multiple severe indicators of potential manipulation."
  else if risk_score ≥ 40 then
    "Detailed forensic review strongly recommended. Significant red flags present."
  else if risk_score ≥ 20 then
    "Enhanced monitoring and targeted investigation of specific areas recommended."
  else
    "Financial reporting appears within normal parameters. Standard due diligence appropriate."

/-- Rank of a risk level, for stating monotonicity of the tier mapping. -/
def levelRank : String → ℕ
  | "MODERATE" => 1
  | "HIGH" => 2
  | "VERY HIGH" => 3
  | _ => 0

/-- Output of `_generate_assessment` (the `risk_factors` narrative strings
are presentational and elided). -/
structure Assessment where
  risk_level : String
  risk_score : ℤ
  recommendation : String
  total_red_flags : ℕ
  critical_red_flags : ℕ
  high_red_flags : ℕ
  medium_red_flags : ℕ
deriving Repr, DecidableEq

/-- `ForensicAccountingAnalyzer._generate_assessment`: sums the weighted
risk contributions in source order, then maps the sum to a tier. -/
def generate_assessment (beneish_results : List PairResult)
    (red_flags : List RedFlagFinding) (trends : Trends) : Assessment :=
  let score1 : ℤ :=
    match beneish_results with
    | [] => 0
    | latest :: _ =>
      if latest.m_score > -1.78 then 40
      else if latest.m_score > -2.22 then 25
      else if latest.m_score > -2.50 then 10
      else 0
  let deteriorating := (trends.m_score_trend.map (fun t => t.is_deteriorating)).getD false
  let score2 := score1 + (if deteriorating then 15 else 0)
  let critical_count := countSeverity red_flags "Critical"
  let high_count := countSeverity red_flags "High"
  let medium_count := countSeverity red_flags "Medium"
  let score3 := score2 + (if critical_count > 0 then (critical_count : ℤ) * 15 else 0)
  let score4 := score3 + (if high_count > 0 then (high_count : ℤ) * 8 else 0)
  let score5 := score4 + (if medium_count > 2 then 10 else 0)
  let is_healthy := (trends.cash_flow_quality.map (fun c => c.is_healthy)).getD true
  let score6 := score5 + (if ¬ is_healthy then 15 else 0)
  let is_improving := (trends.profit_margin.map (fun p => p.is_improving)).getD true
  let latest_pct := (trends.profit_margin.map (fun p => p.latest_pct)).getD 0
  let risk_score := score6 + (if ¬ is_improving ∧ latest_pct < 5 then 10 else 0)
  { risk_level := riskLevel risk_score,
    risk_score := risk_score,
    recommendation := recommendationFor risk_score,
    total_red_flags := red_flags.length,
    critical_red_flags := critical_count,
    high_red_flags := high_count,
    medium_red_flags := medium_count }

/-!
Theorems.
-/

/-- On a mapping with no missing required field, `calculate_m_score`
succeeds with the eight computed variables and the folded score. -/
theorem calculate_m_score_ok (d : FinData) (h : missingFields d = []) :
    calculate_m_score d = Except.ok (mScoreFold (computeVars d), computeVars d) := by
  simp [calculate_m_score, h]

/-- The fold over `variables.items()` is the published linear combination. -/
theorem mScoreFold_eq (v : BeneishVars) :
    mScoreFold v = -4.84 + 0.92 * v.DSRI + 0.528 * v.GMI + 0.404 * v.AQI
      + 0.892 * v.SGI + 0.115 * v.DEPI - 0.172 * v.SGAI + 4.679 * v.TATA
      - 0.327 * v.LVGI := by
  simp only [mScoreFold, varsList, List.foldl, COEFFICIENTS]
  ring

/-- A complete sample input for the Beneish calculator. -/
def sampleData : FinData :=
  [("ar_current", 100), ("ar_prior", 90), ("sales_current", 1000),
   ("sales_prior", 900), ("cogs_current", 600), ("cogs_prior", 540),
   ("total_assets_current", 2000), ("total_assets_prior", 1800),
   ("ppe_current", 500), ("ppe_prior", 450), ("current_assets_current", 800),
   ("current_assets_prior", 700), ("depreciation_current", 50),
   ("depreciation_prior", 45), ("sga_current", 200), ("sga_prior", 180),
   ("total_debt_current", 900), ("total_debt_prior", 800),
   ("net_income_current", 150), ("operating_cf_current", 120)]

/-- C1: for every input mapping containing all required fields,
`calculate_m_score` returns an m_score equal to
−4.84 + 0.92·DSRI + 0.528·GMI + 0.404·AQI + 0.892·SGI + 0.115·DEPI
− 0.172·SGAI + 4.679·TATA − 0.327·LVGI, the eight index values being
exactly those returned in the accompanying variables record (equality
exact over rationals). -/
theorem C1_mscore_is_linear_combination (d : FinData) (h : missingFields d = []) :
    ∃ m v, calculate_m_score d = Except.ok (m, v) ∧
      m = -4.84 + 0.92 * v.DSRI + 0.528 * v.GMI + 0.404 * v.AQI
        + 0.892 * v.SGI + 0.115 * v.DEPI - 0.172 * v.SGAI + 4.679 * v.TATA
        - 0.327 * v.LVGI :=
  ⟨mScoreFold (computeVars d), computeVars d, calculate_m_score_ok d h,
   mScoreFold_eq (computeVars d)⟩

/-- C1 witness: the sample input has no missing field, and the theorem
applies to it. -/
theorem C1_witness :
    missingFields sampleData = [] ∧
    (∃ m v, calculate_m_score sampleData = Except.ok (m, v) ∧
      m = -4.84 + 0.92 * v.DSRI + 0.528 * v.GMI + 0.404 * v.AQI
        + 0.892 * v.SGI + 0.115 * v.DEPI - 0.172 * v.SGAI + 4.679 * v.TATA
        - 0.327 * v.LVGI) :=
  ⟨by decide, C1_mscore_is_linear_combination sampleData (by decide)⟩

/-- C6: `interpret_score` assigns VERY HIGH iff m > −1.78, HIGH iff
−2.22 < m ≤ −1.78, MODERATE iff −2.50 < m ≤ −2.22, LOW otherwise, and
`is_likely_manipulator` holds exactly when m > −2.22. -/
theorem C6_interpret_score_tiers (m : ℚ) :
    ((interpret_score m).risk_level = "VERY HIGH" ↔ m > -1.78) ∧
    ((interpret_score m).risk_level = "HIGH" ↔ -2.22 < m ∧ m ≤ -1.78) ∧
    ((interpret_score m).risk_level = "MODERATE" ↔ -2.50 < m ∧ m ≤ -2.22) ∧
    ((interpret_score m).risk_level = "LOW" ↔ m ≤ -2.50) ∧
    ((interpret_score m).is_likely_manipulator = true ↔ m > -2.22) := by
  unfold interpret_score THRESHOLD_8_VAR
  split_ifs with h1 h2 h3 <;>
    refine ⟨?_, ?_, ?_, ?_, ?_⟩ <;>
    simp_all <;> first | linarith | (intro h; linarith)

/-- C5: the orchestrator's risk-level mapping is a monotonic, exhaustive
four-tier step function with inclusive lower bounds (≥60 VERY HIGH,
≥40 HIGH, ≥20 MODERATE, else LOW); 0 → LOW, 25 → MODERATE, 45 → HIGH,
65 → VERY HIGH, and the boundaries 20, 40, 60 map to the higher tier. -/
theorem C5_risk_level_step_function :
    (∀ s : ℤ,
      ((riskLevel s = "VERY HIGH") ↔ 60 ≤ s) ∧
      ((riskLevel s = "HIGH") ↔ 40 ≤ s ∧ s < 60) ∧
      ((riskLevel s = "MODERATE") ↔ 20 ≤ s ∧ s < 40) ∧
      ((riskLevel s = "LOW") ↔ s < 20)) ∧
    (∀ s t : ℤ, s ≤ t → levelRank (riskLevel s) ≤ levelRank (riskLevel t)) ∧
    riskLevel 0 = "LOW" ∧ riskLevel 25 = "MODERATE" ∧
    riskLevel 45 = "HIGH" ∧ riskLevel 65 = "VERY HIGH" ∧
    riskLevel 20 = "MODERATE" ∧ riskLevel 40 = "HIGH" ∧
    riskLevel 60 = "VERY HIGH" := by
  refine ⟨?_, ?_, by decide, by decide, by decide, by decide, by decide,
    by decide, by decide⟩
  · intro s
    unfold riskLevel
    split_ifs <;>
      refine ⟨?_, ?_, ?_, ?_⟩ <;> simp_all <;> omega
  · intro s t hst
    unfold riskLevel
    split_ifs <;> first | decide | omega

/-- C5 witness: monotonicity applied at the concrete pair 0 ≤ 25. -/
theorem C5_witness :
    (0 : ℤ) ≤ 25 ∧ levelRank (riskLevel 0) ≤ levelRank (riskLevel 25) :=
  ⟨by decide, C5_risk_level_step_function.2.1 0 25 (by decide)⟩

/-- A mapping containing 19 of the required keys: all but `operating_cf_current`. -/
def nineteenFieldData : FinData :=
  [("ar_current", 100), ("ar_prior", 90), ("sales_current", 1000),
   ("sales_prior", 900), ("cogs_current", 600), ("cogs_prior", 540),
   ("total_assets_current", 2000), ("total_assets_prior", 1800),
   ("ppe_current", 500), ("ppe_prior", 450), ("current_assets_current", 800),
   ("current_assets_prior", 700), ("depreciation_current", 50),
   ("depreciation_prior", 45), ("sga_current", 200), ("sga_prior", 180),
   ("total_debt_current", 900), ("total_debt_prior", 800),
   ("net_income_current", 150)]

/-- C3 counterexample: the validated key set has 20 elements, not 19; a
mapping holding 19 of the required keys (all but `operating_cf_current`)
still raises the missing-fields error. -/
theorem C3_counterexample :
    requiredFields.length = 20 ∧ requiredFields.length ≠ 19 ∧
    nineteenFieldData.length = 19 ∧
    calculate_m_score nineteenFieldData = Except.error ["operating_cf_current"] := by
  refine ⟨by decide, by decide, by decide, ?_⟩
  rfl

/-- C3 (amended): `calculate_m_score` validates the presence of 20 specific
keys, raising the structured missing-fields error exactly when at least one
required key is absent, with the error naming every absent key (in
`required_fields` order); when none is absent no error is raised. -/
theorem C3_missing_field_validation :
    requiredFields.length = 20 ∧
    ∀ d : FinData,
      (∀ f, f ∈ missingFields d ↔ f ∈ requiredFields ∧ d.lookup f = none) ∧
      (missingFields d ≠ [] → calculate_m_score d = Except.error (missingFields d)) ∧
      (missingFields d = [] → ∃ r, calculate_m_score d = Except.ok r) := by
  refine ⟨by decide, fun d => ⟨?_, ?_, ?_⟩⟩
  · intro f
    simp [missingFields, List.mem_filter, Option.isNone_iff_eq_none]
  · intro h
    simp [calculate_m_score, h]
  · intro h
    exact ⟨_, calculate_m_score_ok d h⟩

/-- C3 witness: the 19-key mapping is missing a key, and the amended
theorem yields the structured error naming it. -/
theorem C3_witness :
    missingFields nineteenFieldData ≠ [] ∧
    calculate_m_score nineteenFieldData =
      Except.error (missingFields nineteenFieldData) :=
  ⟨by decide,
   (C3_missing_field_validation.2 nineteenFieldData).2.1 (by decide)⟩

/-- The sample input with prior-year sales zeroed out: a degenerate
denominator for DSRI, SGI, SGAI and for the prior gross margin. -/
def degenerateData : FinData :=
  [("ar_current", 100), ("ar_prior", 90), ("sales_current", 1000),
   ("sales_prior", 0), ("cogs_current", 600), ("cogs_prior", 540),
   ("total_assets_current", 2000), ("total_assets_prior", 1800),
   ("ppe_current", 500), ("ppe_prior", 450), ("current_assets_current", 800),
   ("current_assets_prior", 700), ("depreciation_current", 50),
   ("depreciation_prior", 45), ("sga_current", 200), ("sga_prior", 180),
   ("total_debt_current", 900), ("total_debt_prior", 800),
   ("net_income_current", 150), ("operating_cf_current", 120)]

/-- The GMI component of `computeVars`, with its inline gross-margin guards. -/
theorem computeVars_GMI (d : FinData) :
    (computeVars d).GMI = calculate_gmi
      (if dget d "sales_prior" 0 ≠ 0 then
        (dget d "sales_prior" 0 - dget d "cogs_prior" 0) / dget d "sales_prior" 0
      else 0)
      (if dget d "sales_current" 0 ≠ 0 then
        (dget d "sales_current" 0 - dget d "cogs_current" 0) / dget d "sales_current" 0
      else 0) := rfl

/-- C2 counterexample: with prior Sales = 0 (and a nonzero current gross
margin) the accepted input yields GMI = 0.0, not the claimed 1.0: the
prior gross margin is zeroed by the preparation guard and becomes the
numerator of GMI, which is only guarded on its denominator. -/
theorem C2_counterexample :
    missingFields degenerateData = [] ∧
    dget degenerateData "sales_prior" 0 = 0 ∧
    (calculate_m_score degenerateData).toOption.map (fun r => r.2.GMI) = some 0 ∧
    (calculate_m_score degenerateData).toOption.map (fun r => r.2.GMI) ≠ some 1 := by
  have hok := calculate_m_score_ok degenerateData (by decide)
  have hGMI : (computeVars degenerateData).GMI = 0 := by
    have hsp : dget degenerateData "sales_prior" 0 = 0 := by decide
    have hsc : dget degenerateData "sales_current" 0 = 1000 := by decide
    have hcc : dget degenerateData "cogs_current" 0 = 600 := by decide
    have hcp : dget degenerateData "cogs_prior" 0 = 540 := by decide
    rw [computeVars_GMI, hsp, hsc, hcc, hcp]
    norm_num [calculate_gmi]
  have h3 : (calculate_m_score degenerateData).toOption.map (fun r => r.2.GMI)
      = some 0 := by
    rw [hok]
    simp [Except.toOption, hGMI]
  refine ⟨by decide, by decide, h3, ?_⟩
  rw [h3]
  intro hcontra
  exact absurd (Option.some.inj hcontra) (by norm_num)

/-- `calculate_sgai` returns 1 when the prior SGA ratio is zero because
prior SGA is zero: the inner `sgai_prior == 0` guard fires. -/
theorem calculate_sgai_prior_zero (a b c : ℚ) : calculate_sgai a b 0 c = 1 := by
  unfold calculate_sgai
  rcases em (b = 0 ∨ c = 0) with h | h
  · rw [if_pos h]
    norm_num
  · rw [if_neg h]
    show (if (0 : ℚ) / c = 0 then (1.0 : ℚ) else (a / b) / ((0 : ℚ) / c)) = 1
    rw [zero_div]
    norm_num

/-- `calculate_lvgi` returns 1 when prior total debt is zero: the prior
leverage ratio is zero and the inner `leverage_prior == 0` guard fires. -/
theorem calculate_lvgi_prior_zero (a b c : ℚ) : calculate_lvgi a b 0 c = 1 := by
  unfold calculate_lvgi
  rcases em (b = 0 ∨ c = 0) with h | h
  · rw [if_pos h]
    norm_num
  · rw [if_neg h]
    show (if (0 : ℚ) / c = 0 then (1.0 : ℚ) else (a / b) / ((0 : ℚ) / c)) = 1
    rw [zero_div]
    norm_num

/-- `calculate_aqi` returns 1 when the prior soft-asset ratio
`1 − (CA + PPE)/TA` is zero: the inner `aqi_prior == 0` guard fires. -/
theorem calculate_aqi_prior_ratio_zero (tac ppec cac tap ppep cap : ℚ)
    (h : 1 - ((cap + ppep) / tap) = 0) :
    calculate_aqi tac ppec cac tap ppep cap = 1 := by
  unfold calculate_aqi
  rcases em (tac = 0 ∨ tap = 0) with h1 | h1
  · rw [if_pos h1]
    norm_num
  · rw [if_neg h1]
    show (if 1 - ((cap + ppep) / tap) = 0 then (1.0 : ℚ)
      else (1 - ((cac + ppec) / tac)) / (1 - ((cap + ppep) / tap))) = 1
    rw [if_pos h]
    norm_num

/-- C2 (amended): on every accepted input, DSRI, AQI, SGAI and LVGI
evaluate to exactly 1.0 and TATA to exactly 0.0 whenever any denominator
required by that index is zero — the outer denominators (current or
prior Sales = 0, prior AR = 0, current or prior total assets = 0) and
the inner prior-ratio denominators (prior SGA = 0, prior soft-asset
ratio 1 − (CA+PPE)/TA = 0, prior total debt = 0); GMI evaluates to 1.0
when the current gross margin is zero (in particular when current
Sales = 0 or current Sales = COGS) — but when prior Sales = 0 while the
current gross margin is nonzero, GMI evaluates to 0.0, not 1.0.  No
case raises or produces NaN/Inf: the result is always an ordinary
rational. -/
theorem C2_degenerate_denominator_defaults (d : FinData)
    (h : missingFields d = []) :
    ∃ m v, calculate_m_score d = Except.ok (m, v) ∧
      ((dget d "sales_current" 0 = 0 ∨ dget d "sales_prior" 0 = 0 ∨
          dget d "ar_prior" 0 = 0) → v.DSRI = 1) ∧
      ((dget d "sales_current" 0 = 0 ∨ dget d "sales_prior" 0 = 0) →
          v.SGAI = 1) ∧
      (dget d "sga_prior" 0 = 0 → v.SGAI = 1) ∧
      ((dget d "total_assets_current" 0 = 0 ∨ dget d "total_assets_prior" 0 = 0) →
          v.AQI = 1 ∧ v.LVGI = 1) ∧
      (1 - ((dget d "current_assets_prior" 0 + dget d "ppe_prior" 0) /
          dget d "total_assets_prior" 0) = 0 → v.AQI = 1) ∧
      (dget d "total_debt_prior" 0 = 0 → v.LVGI = 1) ∧
      (dget d "total_assets_current" 0 = 0 → v.TATA = 0) ∧
      (dget d "sales_current" 0 = 0 → v.GMI = 1) ∧
      (dget d "sales_current" 0 - dget d "cogs_current" 0 = 0 → v.GMI = 1) ∧
      (dget d "sales_prior" 0 = 0 → dget d "sales_current" 0 ≠ 0 →
          dget d "sales_current" 0 - dget d "cogs_current" 0 ≠ 0 → v.GMI = 0) := by
  refine ⟨mScoreFold (computeVars d), computeVars d, calculate_m_score_ok d h,
    ?_, ?_, ?_, ?_, ?_, ?_, ?_, ?_, ?_, ?_⟩
  · intro hc
    show calculate_dsri (dget d "ar_current" 0) (dget d "sales_current" 0)
      (dget d "ar_prior" 0) (dget d "sales_prior" 0) = 1
    unfold calculate_dsri
    rw [if_pos hc]
    norm_num
  · intro hc
    show calculate_sgai (dget d "sga_current" 0) (dget d "sales_current" 0)
      (dget d "sga_prior" 0) (dget d "sales_prior" 0) = 1
    unfold calculate_sgai
    rw [if_pos hc]
    norm_num
  · intro hc
    show calculate_sgai (dget d "sga_current" 0) (dget d "sales_current" 0)
      (dget d "sga_prior" 0) (dget d "sales_prior" 0) = 1
    rw [hc]
    exact calculate_sgai_prior_zero _ _ _
  · intro hc
    constructor
    · show calculate_aqi (dget d "total_assets_current" 0) (dget d "ppe_current" 0)
        (dget d "current_assets_current" 0) (dget d "total_assets_prior" 0)
        (dget d "ppe_prior" 0) (dget d "current_assets_prior" 0) = 1
      unfold calculate_aqi
      rw [if_pos hc]
      norm_num
    · show calculate_lvgi (dget d "total_debt_current" 0)
        (dget d "total_assets_current" 0) (dget d "total_debt_prior" 0)
        (dget d "total_assets_prior" 0) = 1
      unfold calculate_lvgi
      rw [if_pos hc]
      norm_num
  · intro hc
    show calculate_aqi (dget d "total_assets_current" 0) (dget d "ppe_current" 0)
      (dget d "current_assets_current" 0) (dget d "total_assets_prior" 0)
      (dget d "ppe_prior" 0) (dget d "current_assets_prior" 0) = 1
    exact calculate_aqi_prior_ratio_zero _ _ _ _ _ _ hc
  · intro hc
    show calculate_lvgi (dget d "total_debt_current" 0)
      (dget d "total_assets_current" 0) (dget d "total_debt_prior" 0)
      (dget d "total_assets_prior" 0) = 1
    rw [hc]
    exact calculate_lvgi_prior_zero _ _ _
  · intro hc
    show calculate_tata (dget d "net_income_current" 0)
      (dget d "operating_cf_current" 0) (dget d "total_assets_current" 0) = 0
    unfold calculate_tata
    rw [if_pos hc]
    norm_num
  · intro hc
    have hgmc : (if dget d "sales_current" 0 ≠ 0 then
        (dget d "sales_current" 0 - dget d "cogs_current" 0) /
          dget d "sales_current" 0
      else 0) = 0 := if_neg (by simp [hc])
    rw [computeVars_GMI d, hgmc]
    norm_num [calculate_gmi]
  · intro hc
    have hzero : (if dget d "sales_current" 0 ≠ 0 then
        (dget d "sales_current" 0 - dget d "cogs_current" 0) /
          dget d "sales_current" 0
      else 0) = 0 := by
      split_ifs with hs
      · rw [hc, zero_div]
      · rfl
    rw [computeVars_GMI d, hzero]
    norm_num [calculate_gmi]
  · intro hsp hsc hdiff
    have hnum : (if dget d "sales_prior" 0 ≠ 0 then
        (dget d "sales_prior" 0 - dget d "cogs_prior" 0) /
          dget d "sales_prior" 0
      else 0) = 0 := by rw [if_neg (by simp [hsp])]
    have hden : (if dget d "sales_current" 0 ≠ 0 then
        (dget d "sales_current" 0 - dget d "cogs_current" 0) /
          dget d "sales_current" 0
      else 0) = (dget d "sales_current" 0 - dget d "cogs_current" 0) /
          dget d "sales_current" 0 := if_pos hsc
    rw [computeVars_GMI d, hnum, hden]
    unfold calculate_gmi
    rw [if_neg (div_ne_zero hdiff hsc)]
    exact zero_div _

/-- C2 witness: the degenerate sample (prior Sales = 0) is accepted, and
the amended defaults hold on it. -/
theorem C2_witness :
    missingFields degenerateData = [] ∧
    (∃ m v, calculate_m_score degenerateData = Except.ok (m, v) ∧
      ((dget degenerateData "sales_current" 0 = 0 ∨
          dget degenerateData "sales_prior" 0 = 0 ∨
          dget degenerateData "ar_prior" 0 = 0) → v.DSRI = 1) ∧
      ((dget degenerateData "sales_current" 0 = 0 ∨
          dget degenerateData "sales_prior" 0 = 0) → v.SGAI = 1) ∧
      (dget degenerateData "sga_prior" 0 = 0 → v.SGAI = 1) ∧
      ((dget degenerateData "total_assets_current" 0 = 0 ∨
          dget degenerateData "total_assets_prior" 0 = 0) →
          v.AQI = 1 ∧ v.LVGI = 1) ∧
      (1 - ((dget degenerateData "current_assets_prior" 0 +
          dget degenerateData "ppe_prior" 0) /
          dget degenerateData "total_assets_prior" 0) = 0 → v.AQI = 1) ∧
      (dget degenerateData "total_debt_prior" 0 = 0 → v.LVGI = 1) ∧
      (dget degenerateData "total_assets_current" 0 = 0 → v.TATA = 0) ∧
      (dget degenerateData "sales_current" 0 = 0 → v.GMI = 1) ∧
      (dget degenerateData "sales_current" 0 -
          dget degenerateData "cogs_current" 0 = 0 → v.GMI = 1) ∧
      (dget degenerateData "sales_prior" 0 = 0 →
          dget degenerateData "sales_current" 0 ≠ 0 →
          dget degenerateData "sales_current" 0 -
            dget degenerateData "cogs_current" 0 ≠ 0 → v.GMI = 0)) :=
  ⟨by decide, C2_degenerate_denominator_defaults degenerateData (by decide)⟩

/-- C4: the orchestrator's risk_score is the sum of all applicable
contributions, with no short-circuiting: the 40/25/10/0 latest M-Score
tier, +15 for a deteriorating M-Score trend, +15 per Critical red flag,
+8 per High red flag, +10 flat when Medium red flags number more than 2,
+15 when the cash-flow ratio is unhealthy, and +10 when margins are
non-improving and the latest margin is below 5. -/
theorem C4_risk_score_is_additive (beneish_results : List PairResult)
    (red_flags : List RedFlagFinding) (trends : Trends) :
    (generate_assessment beneish_results red_flags trends).risk_score =
      (match beneish_results with
       | [] => 0
       | latest :: _ =>
         if latest.m_score > -1.78 then (40 : ℤ)
         else if latest.m_score > -2.22 then 25
         else if latest.m_score > -2.50 then 10
         else 0) +
      (if (trends.m_score_trend.map (fun t => t.is_deteriorating)).getD false
        then 15 else 0) +
      15 * ((red_flags.filter (fun f => f.severity = "Critical")).length : ℤ) +
      8 * ((red_flags.filter (fun f => f.severity = "High")).length : ℤ) +
      (if 2 < (red_flags.filter (fun f => f.severity = "Medium")).length
        then 10 else 0) +
      (if (trends.cash_flow_quality.map (fun c => c.is_healthy)).getD true = false
        then 15 else 0) +
      (if (trends.profit_margin.map (fun p => p.is_improving)).getD true = false ∧
          (trends.profit_margin.map (fun p => p.latest_pct)).getD 0 < 5
        then 10 else 0) := by
  unfold generate_assessment countSeverity
  cases beneish_results <;>
    simp only [Bool.not_eq_true] <;>
    split_ifs <;>
    push_cast <;>
    omega

/-- C7: with latest NetIncome > 0 and OperatingCashFlow ≥ 0, the
cash-flow-quality rule emits exactly one "Earnings Quality" finding when
OperatingCashFlow/NetIncome < 0.8 — Critical when the ratio is below 0.5
and High otherwise — and no finding when the ratio is at least 0.8. -/
theorem C7_cash_flow_quality_rule (current : AnnualData) (rest : List AnnualData)
    (hni : dget current "NetIncome" 0 > 0)
    (hocf : dget current "OperatingCashFlow" 0 ≥ 0) :
    (dget current "OperatingCashFlow" 0 / dget current "NetIncome" 0 < 0.8 →
      analyze_cash_flow_quality (current :: rest) =
        [{ category := "Earnings Quality",
           severity :=
             if dget current "OperatingCashFlow" 0 / dget current "NetIncome" 0 < 0.5
             then "Critical" else "High",
           title := "Operating Cash Flow Significantly Below Net Income" }]) ∧
    (0.8 ≤ dget current "OperatingCashFlow" 0 / dget current "NetIncome" 0 →
      analyze_cash_flow_quality (current :: rest) = []) := by
  have hocf_not_neg : ¬ (dget current "OperatingCashFlow" 0 < 0 ∧
      dget current "NetIncome" 0 > 0) := by
    intro hcontra
    exact absurd hcontra.1 (not_lt.mpr hocf)
  constructor
  · intro hratio
    simp only [analyze_cash_flow_quality]
    rw [if_pos hni, if_pos hratio, if_neg hocf_not_neg]
    simp
  · intro hratio
    simp only [analyze_cash_flow_quality]
    rw [if_pos hni, if_neg (not_lt.mpr hratio), if_neg hocf_not_neg]
    simp

/-- A one-year record with NetIncome 100 and the given operating cash flow. -/
def cfRec (ocf : ℚ) : AnnualData := [("NetIncome", 100), ("OperatingCashFlow", ocf)]

/-- C7 witness: NetIncome 100 with OperatingCashFlow 40 yields exactly one
Critical finding, 70 exactly one High finding, 85 none. -/
theorem C7_witness :
    dget (cfRec 40) "NetIncome" 0 > 0 ∧
    dget (cfRec 40) "OperatingCashFlow" 0 ≥ 0 ∧
    analyze_cash_flow_quality [cfRec 40, cfRec 40] =
      [{ category := "Earnings Quality", severity := "Critical",
         title := "Operating Cash Flow Significantly Below Net Income" }] ∧
    analyze_cash_flow_quality [cfRec 70, cfRec 70] =
      [{ category := "Earnings Quality", severity := "High",
         title := "Operating Cash Flow Significantly Below Net Income" }] ∧
    analyze_cash_flow_quality [cfRec 85, cfRec 85] = [] := by
  have hni40 : dget (cfRec 40) "NetIncome" 0 = 100 := by decide
  have hcf40 : dget (cfRec 40) "OperatingCashFlow" 0 = 40 := by decide
  have hni70 : dget (cfRec 70) "NetIncome" 0 = 100 := by decide
  have hcf70 : dget (cfRec 70) "OperatingCashFlow" 0 = 70 := by decide
  have hni85 : dget (cfRec 85) "NetIncome" 0 = 100 := by decide
  have hcf85 : dget (cfRec 85) "OperatingCashFlow" 0 = 85 := by decide
  refine ⟨by rw [hni40]; norm_num, by rw [hcf40]; norm_num, ?_, ?_, ?_⟩
  · have h := (C7_cash_flow_quality_rule (cfRec 40) [cfRec 40]
      (by rw [hni40]; norm_num) (by rw [hcf40]; norm_num)).1
      (by rw [hni40, hcf40]; norm_num)
    rw [h, hni40, hcf40]
    norm_num
  · have h := (C7_cash_flow_quality_rule (cfRec 70) [cfRec 70]
      (by rw [hni70]; norm_num) (by rw [hcf70]; norm_num)).1
      (by rw [hni70, hcf70]; norm_num)
    rw [h, hni70, hcf70]
    norm_num
  · exact (C7_cash_flow_quality_rule (cfRec 85) [cfRec 85]
      (by rw [hni85]; norm_num) (by rw [hcf85]; norm_num)).2
      (by rw [hni85, hcf85]; norm_num)

/-- C8: the orchestrator's per-pair M-Score loop never aborts: for any
per-pair computation, the result list holds exactly the successful pairs
(in order) and the log holds exactly one skip record, naming the period
index, for each failing pair. -/
theorem C8_pair_loop_skips_failures
    (compute : AnnualData → AnnualData → Except String PairResult)
    (annual_data : List AnnualData) (i : ℕ) :
    (calcBeneishLoop compute annual_data i).1 =
      (annual_data.zip annual_data.tail).filterMap
        (fun p => (compute p.1 p.2).toOption) ∧
    (calcBeneishLoop compute annual_data i).2 =
      (List.enumFrom i (annual_data.zip annual_data.tail)).filterMap
        (fun q =>
          match compute q.2.1 q.2.2 with
          | Except.ok _ => none
          | Except.error e =>
            some ("Warning: Could not calculate Beneish score for period " ++
              toString q.1 ++ ": " ++ e)) := by
  induction annual_data generalizing i with
  | nil => simp [calcBeneishLoop]
  | cons a rest ih =>
    cases rest with
    | nil => simp [calcBeneishLoop]
    | cons b rest2 =>
      obtain ⟨h1, h2⟩ := ih (i + 1)
      simp only [calcBeneishLoop]
      cases hc : compute a b <;>
        simp [List.enumFrom, List.zip, Except.toOption, h1, h2, hc]

/-- C9 counterexample: on a record with no `DepreciationAndAmortization`
key, the orchestrator prepares `depreciation_current` as 1, not 0. -/
theorem C9_counterexample :
    (([] : AnnualData).lookup "DepreciationAndAmortization" = none) ∧
    (prepareBeneishData [] []).lookup "depreciation_current" = some 1 ∧
    (prepareBeneishData [] []).lookup "depreciation_current" ≠ some 0 := by
  refine ⟨by decide, by decide, by decide⟩

/-- C9 (amended): when the orchestrator prepares the Beneish input from a
year pair, every absent metric field is treated as 0 — except
`DepreciationAndAmortization`, which is treated as 1 (for both years),
and the SG&A inputs, which are not looked up but derived by
`_estimate_sga`. -/
theorem C9_beneish_input_defaults (current_year prior_year : AnnualData) :
    (prepareBeneishData current_year prior_year).lookup "ar_current" =
      some ((current_year.lookup "AccountsReceivable").getD 0) ∧
    (prepareBeneishData current_year prior_year).lookup "ar_prior" =
      some ((prior_year.lookup "AccountsReceivable").getD 0) ∧
    (prepareBeneishData current_year prior_year).lookup "sales_current" =
      some ((current_year.lookup "Revenues").getD 0) ∧
    (prepareBeneishData current_year prior_year).lookup "sales_prior" =
      some ((prior_year.lookup "Revenues").getD 0) ∧
    (prepareBeneishData current_year prior_year).lookup "cogs_current" =
      some ((current_year.lookup "CostOfRevenue").getD 0) ∧
    (prepareBeneishData current_year prior_year).lookup "cogs_prior" =
      some ((prior_year.lookup "CostOfRevenue").getD 0) ∧
    (prepareBeneishData current_year prior_year).lookup "total_assets_current" =
      some ((current_year.lookup "Assets").getD 0) ∧
    (prepareBeneishData current_year prior_year).lookup "total_assets_prior" =
      some ((prior_year.lookup "Assets").getD 0) ∧
    (prepareBeneishData current_year prior_year).lookup "ppe_current" =
      some ((current_year.lookup "PropertyPlantEquipment").getD 0) ∧
    (prepareBeneishData current_year prior_year).lookup "ppe_prior" =
      some ((prior_year.lookup "PropertyPlantEquipment").getD 0) ∧
    (prepareBeneishData current_year prior_year).lookup "current_assets_current" =
      some ((current_year.lookup "CurrentAssets").getD 0) ∧
    (prepareBeneishData current_year prior_year).lookup "current_assets_prior" =
      some ((prior_year.lookup "CurrentAssets").getD 0) ∧
    (prepareBeneishData current_year prior_year).lookup "depreciation_current" =
      some ((current_year.lookup "DepreciationAndAmortization").getD 1) ∧
    (prepareBeneishData current_year prior_year).lookup "depreciation_prior" =
      some ((prior_year.lookup "DepreciationAndAmortization").getD 1) ∧
    (prepareBeneishData current_year prior_year).lookup "sga_current" =
      some (estimate_sga current_year) ∧
    (prepareBeneishData current_year prior_year).lookup "sga_prior" =
      some (estimate_sga prior_year) ∧
    (prepareBeneishData current_year prior_year).lookup "total_debt_current" =
      some ((current_year.lookup "Liabilities").getD 0) ∧
    (prepareBeneishData current_year prior_year).lookup "total_debt_prior" =
      some ((prior_year.lookup "Liabilities").getD 0) ∧
    (prepareBeneishData current_year prior_year).lookup "net_income_current" =
      some ((current_year.lookup "NetIncome").getD 0) ∧
    (prepareBeneishData current_year prior_year).lookup "operating_cf_current" =
      some ((current_year.lookup "OperatingCashFlow").getD 0) := by
  refine ⟨rfl, rfl, rfl, rfl, rfl, rfl, rfl, rfl, rfl, rfl, rfl, rfl, rfl, rfl,
    rfl, rfl, rfl, rfl, rfl, rfl⟩

/-- Every finding of the revenue-quality rule has severity Medium or High. -/
theorem severity_revenue_quality (data : List AnnualData) (f : RedFlagFinding)
    (h : f ∈ analyze_revenue_quality data) :
    f.severity = "Medium" ∨ f.severity = "High" ∨ f.severity = "Critical" := by
  rcases data with _ | ⟨c, _ | ⟨p, rest⟩⟩ <;>
    simp only [analyze_revenue_quality, List.mem_append] at h
  · exact absurd h (List.not_mem_nil f)
  · exact absurd h (List.not_mem_nil f)
  · split_ifs at h <;> simp_all <;> rcases h with h | h <;> subst h <;> simp

/-- Every finding of the cash-flow-quality rule has severity High or Critical. -/
theorem severity_cash_flow_quality (data : List AnnualData) (f : RedFlagFinding)
    (h : f ∈ analyze_cash_flow_quality data) :
    f.severity = "Medium" ∨ f.severity = "High" ∨ f.severity = "Critical" := by
  rcases data with _ | ⟨c, rest⟩ <;>
    simp only [analyze_cash_flow_quality, List.mem_append] at h
  · exact absurd h (List.not_mem_nil f)
  · split_ifs at h <;> simp_all <;> rcases h with h | h <;> subst h <;> simp

/-- Every finding of the working-capital rule has severity High or Medium. -/
theorem severity_working_capital (data : List AnnualData) (f : RedFlagFinding)
    (h : f ∈ analyze_working_capital data) :
    f.severity = "Medium" ∨ f.severity = "High" ∨ f.severity = "Critical" := by
  rcases data with _ | ⟨c, _ | ⟨p, rest⟩⟩ <;>
    simp only [analyze_working_capital, List.mem_append] at h
  · exact absurd h (List.not_mem_nil f)
  · exact absurd h (List.not_mem_nil f)
  · split_ifs at h
    all_goals simp_all
    rcases h with h | h <;> subst h <;> simp

/-- Every finding of the earnings-quality rule has severity Medium. -/
theorem severity_earnings_quality (data : List AnnualData) (f : RedFlagFinding)
    (h : f ∈ analyze_earnings_quality data) :
    f.severity = "Medium" ∨ f.severity = "High" ∨ f.severity = "Critical" := by
  simp only [analyze_earnings_quality] at h
  split_ifs at h <;> simp_all

/-- Every finding of the asset-quality rule has severity Medium. -/
theorem severity_asset_quality (data : List AnnualData) (f : RedFlagFinding)
    (h : f ∈ analyze_asset_quality data) :
    f.severity = "Medium" ∨ f.severity = "High" ∨ f.severity = "Critical" := by
  rcases data with _ | ⟨c, _ | ⟨p, rest⟩⟩ <;>
    simp only [analyze_asset_quality] at h
  · exact absurd h (List.not_mem_nil f)
  · exact absurd h (List.not_mem_nil f)
  · split_ifs at h <;> simp_all

/-- Every finding of the debt-trends rule has severity High. -/
theorem severity_debt_trends (data : List AnnualData) (f : RedFlagFinding)
    (h : f ∈ analyze_debt_trends data) :
    f.severity = "Medium" ∨ f.severity = "High" ∨ f.severity = "Critical" := by
  rcases data with _ | ⟨c, _ | ⟨p, rest⟩⟩ <;>
    simp only [analyze_debt_trends] at h
  · exact absurd h (List.not_mem_nil f)
  · exact absurd h (List.not_mem_nil f)
  · split_ifs at h <;> simp_all

/-- Every finding of the margins rule has severity High or Medium. -/
theorem severity_margins (data : List AnnualData) (f : RedFlagFinding)
    (h : f ∈ analyze_margins data) :
    f.severity = "Medium" ∨ f.severity = "High" ∨ f.severity = "Critical" := by
  rcases data with _ | ⟨c, _ | ⟨p, rest⟩⟩ <;>
    simp only [analyze_margins] at h
  · exact absurd h (List.not_mem_nil f)
  · exact absurd h (List.not_mem_nil f)
  · split_ifs at h <;> simp_all

/-- C10: every finding returned by `analyze_all` has severity Medium, High
or Critical — the declared Low level is never emitted by any rule. -/
theorem C10_no_low_severity (data : List AnnualData) (f : RedFlagFinding)
    (h : f ∈ analyze_all data) :
    f.severity ∈ (["Medium", "High", "Critical"] : List String) := by
  unfold analyze_all at h
  split_ifs at h with hlen
  · exact absurd h (List.not_mem_nil f)
  · simp only [List.mem_append] at h
    have hres : f.severity = "Medium" ∨ f.severity = "High" ∨
        f.severity = "Critical" := by
      rcases h with (((((h | h) | h) | h) | h) | h) | h
      · exact severity_revenue_quality data f h
      · exact severity_cash_flow_quality data f h
      · exact severity_working_capital data f h
      · exact severity_earnings_quality data f h
      · exact severity_asset_quality data f h
      · exact severity_debt_trends data f h
      · exact severity_margins data f h
    rcases hres with h1 | h1 | h1 <;> simp [h1]

/-- The Critical cash-flow finding used as the C10 witness. -/
def cfCriticalFinding : RedFlagFinding :=
  { category := "Earnings Quality", severity := "Critical",
    title := "Operating Cash Flow Significantly Below Net Income" }

/-- C10 witness: a concrete two-year series whose battery emits a finding,
and that finding's severity is in the allowed set. -/
theorem C10_witness :
    cfCriticalFinding ∈ analyze_all [cfRec 40, cfRec 40] ∧
    cfCriticalFinding.severity ∈ (["Medium", "High", "Critical"] : List String) := by
  have hmem : cfCriticalFinding ∈ analyze_all [cfRec 40, cfRec 40] := by
    have hf0 : dget (cfRec 40) "Revenues" 0 = 0 := by decide
    have hf1 : dget (cfRec 40) "AccountsReceivable" 0 = 0 := by decide
    have hf2 : dget (cfRec 40) "NetIncome" 0 = 100 := by decide
    have hf3 : dget (cfRec 40) "OperatingCashFlow" 0 = 40 := by decide
    have hf4 : dget (cfRec 40) "CurrentAssets" 0 = 0 := by decide
    have hf5 : dget (cfRec 40) "CurrentLiabilities" 0 = 0 := by decide
    have hf6 : dget (cfRec 40) "Inventory" 0 = 0 := by decide
    have hf7 : dget (cfRec 40) "Assets" 0 = 0 := by decide
    have hf8 : dget (cfRec 40) "PropertyPlantEquipment" 0 = 0 := by decide
    have hf9 : dget (cfRec 40) "Liabilities" 0 = 0 := by decide
    have hf10 : dget (cfRec 40) "StockholdersEquity" 0 = 0 := by decide
    have hf11 : dget (cfRec 40) "CostOfRevenue" 0 = 0 := by decide
    norm_num [analyze_all, analyze_revenue_quality, analyze_cash_flow_quality,
      analyze_working_capital, analyze_earnings_quality, analyze_asset_quality,
      analyze_debt_trends, analyze_margins, cfCriticalFinding,
      hf0, hf1, hf2, hf3, hf4, hf5, hf6, hf7, hf8, hf9, hf10, hf11]
  exact ⟨hmem, C10_no_low_severity [cfRec 40, cfRec 40] _ hmem⟩
